import Mathlib

/-
Verification of the alert pipeline of the event-driven SRE platform.

Shallow embedding of the two Lambda handlers:
  * terraform/lambda/alert_ingest/handler.py   (ingest coordinator, normalizer, fan-out)
  * terraform/lambda/runbook_action/handler.py (action router, remediation executor,
    control-plane client)

External collaborators (DynamoDB, EventBridge, SNS, Step Functions, SSM, EKS,
the Kubernetes API) are modelled as an explicit trace of side effects; a call
that the Python code performs appends one effect to the trace, and an exception
raised by the handler is modelled as an `Except.error` value paired with the
effects performed before the raise.
-/

set_option autoImplicit false

deriving instance DecidableEq for Except

namespace SREPlatform

/-- Lookup in a string-keyed map modelled as an association list; models
the Python expression `dict.get(key)` returning `None` when the key is absent.  Python
dictionaries have unique keys, so only the first binding matters. -/
def dictGet (m : List (String × String)) (k : String) : Option String :=
  (m.find? (fun kv => kv.1 == k)).map (·.2)

/-- Models the Python expression `x or y` where `x` is an optional string (`None` and the
empty string are falsy). -/
def pyOr (a : Option String) (b : String) : String :=
  match a with
  | some s => if s = "" then b else s
  | none => b

/-- Models the Python builtin `int(s)` on a decimal string literal: optional surrounding
whitespace, an optional sign, then at least one digit.  Returns `none` when
`int` would raise `ValueError`.  (Underscore digit grouping and non-ASCII
digits, which CPython also accepts, are not modelled; no input considered in
this development uses them.) -/
def pyStrToInt (s : String) : Option Int :=
  let cs := (((s.data.dropWhile Char.isWhitespace).reverse.dropWhile
      Char.isWhitespace).reverse)
  let signed : Bool × List Char :=
    match cs with
    | '-' :: rest => (true, rest)
    | '+' :: rest => (false, rest)
    | rest => (false, rest)
  match signed with
  | (neg, digits) =>
    if digits = [] then none
    else if digits.all Char.isDigit then
      let n : Nat := digits.foldl (fun acc c => acc * 10 + (c.toNat - 48)) 0
      if neg then some (-(n : Int)) else some (n : Int)
    else none

/-- Models the Python string slicing `s[:n]`, which counts code points, as
does the character list of a Lean string. -/
def strTake (s : String) (n : Nat) : String :=
  ⟨s.data.take n⟩

namespace RunbookAction

/-- Environment-variable configuration read by `runbook_action.lambda_handler`
via `get_env` (`os.environ.get`); `none` models an unset variable. -/
structure Env where
  region : Option String
  awsRegion : Option String
  clusterName : Option String
  targetNamespace : Option String
  targetDeployment : Option String
  degradedParam : Option String
  deriving DecidableEq

/-- Input event of `runbook_action.lambda_handler`: the normalized incident
fields the handler reads.  `annotations = none` models both an absent
`annotations` key and an explicit `null` (the code does
`event.get("annotations", dict()) or dict()`). -/
structure Event where
  alertname : Option String
  severity : Option String
  annotations : Option (List (String × String))
  deriving DecidableEq

/-- One externally visible side effect of the remediation executor, in the
order the Python code performs them.  `clusterConn` is `_cluster_conn`
(EKS `describe_cluster`, endpoint and CA resolution); `mintToken` is
`_eks_bearer_token` (STS presigned-URL credential minting); the remaining
constructors are the SSM audit write and the three Kubernetes patch calls. -/
inductive Effect where
  | clusterConn (cluster : String)
  | mintToken (cluster : String) (region : String)
  | ssmPutParameter (name : String) (value : String)
  | envPatch (ns : String) (deployment : String) (envName : String) (envValue : String)
  | restartPatch (ns : String) (deployment : String)
  | scalePatch (ns : String) (deployment : String) (replicas : Int)
  deriving DecidableEq

/-- Exceptions the handler can raise itself (failures of the external calls
are not modelled; the effect trace records the calls that were issued). -/
inductive Error where
  | missingConfiguration
  | unknownAction (action : String)
  | badReplicas (raw : String)
  deriving DecidableEq

/-- Result dictionary returned by the handler.  The Python dict always carries
`action`, `alertname`, `severity`; `degraded` and `scaled_to` are present only
on the branches that add them, modelled with `Option`. -/
structure Result where
  action : String
  alertname : String
  severity : String
  degraded : Option Bool
  scaled_to : Option Int
  deriving DecidableEq

/-- Default routing table of lines 131-135 of the handler: the value of the
parenthesised conditional expression used when no (truthy) override is set. -/
def defaultRoute (alertname : String) : String :=
  if alertname = "CheckoutHighLatencyP95" ∨ alertname = "CheckoutHighErrorRate" ∨
      alertname = "CheckoutSLOBurnFast" then "degrade_or_scale"
  else if alertname = "CheckoutDown" then "restart"
  else "notify_only"

/-- Action Router: `action = explicit or (...)` where
`explicit = annotations.get("runbook_action")`. -/
def routeAction (alertname : String) (explicit : Option String) : String :=
  pyOr explicit (defaultRoute alertname)

/-- Models `if not cluster:` on the result of `get_env("CLUSTER_NAME")`. -/
def falsyEnv : Option String → Bool
  | none => true
  | some s => s == ""

/-- Embedding of `runbook_action.lambda_handler`, returning the trace of side
effects performed together with either the result dictionary or the raised
error. -/
def lambda_handler (env : Env) (event : Event) : List Effect × Except Error Result :=
  let region := pyOr env.region (pyOr env.awsRegion "us-east-1")
  if falsyEnv env.clusterName then ([], .error .missingConfiguration)
  else
    let cluster := env.clusterName.getD ""
    let ns := env.targetNamespace.getD "apps"
    let deployment := env.targetDeployment.getD "checkout"
    let degradedParam := env.degradedParam.getD "/checkout/degraded_mode"
    let alertname := event.alertname.getD "UnknownAlert"
    let severity := event.severity.getD "ticket"
    let annotations := event.annotations.getD []
    let explicit := dictGet annotations "runbook_action"
    let action := routeAction alertname explicit
    let result : Result :=
      { action := action, alertname := alertname, severity := severity,
        degraded := none, scaled_to := none }
    if action = "notify_only" then ([], .ok result)
    else
      -- cluster connection and credential minting happen before any action branch
      let connect : List Effect := [.clusterConn cluster, .mintToken cluster region]
      if action = "degrade" then
        (connect ++ [.ssmPutParameter degradedParam "true",
                     .envPatch ns deployment "DEGRADED_MODE" "true",
                     .restartPatch ns deployment],
         .ok { result with degraded := some true })
      else if action = "restart" then
        (connect ++ [.restartPatch ns deployment], .ok result)
      else if action = "scale" then
        let raw := (dictGet annotations "desired_replicas").getD "4"
        match pyStrToInt raw with
        | none => (connect, .error (.badReplicas raw))
        | some replicas =>
          (connect ++ [.scalePatch ns deployment replicas], .ok result)
      else if action = "degrade_or_scale" then
        let pre := connect ++ [.ssmPutParameter degradedParam "true",
                               .envPatch ns deployment "DEGRADED_MODE" "true",
                               .restartPatch ns deployment]
        let raw := (dictGet annotations "desired_replicas").getD "4"
        match pyStrToInt raw with
        | none => (pre, .error (.badReplicas raw))
        | some replicas =>
          (pre ++ [.scalePatch ns deployment replicas],
           .ok { result with degraded := some true, scaled_to := some replicas })
      else (connect, .error (.unknownAction action))

/-- Outcome of `_k8s_request` after the HTTP response arrives. -/
inductive K8sOutcome where
  | requestFailed (status : Nat) (truncatedBody : String)
  | okJson (body : String)
  | okEmpty
  deriving DecidableEq

/-- Response handling of `_k8s_request` (lines 61-65): given the status code
and body text of the response, either raise `ControlPlaneRequestFailed` (modelled
as `requestFailed`, carrying the status and the body truncated to 500
characters), parse the non-empty body (JSON deserialization is abstracted:
the raw text is returned), or return an empty result object. -/
def handleK8sResponse (statusCode : Nat) (text : String) : K8sOutcome :=
  if 300 ≤ statusCode then .requestFailed statusCode (strTake text 500)
  else if text ≠ "" then .okJson text
  else .okEmpty

end RunbookAction

namespace AlertIngest

/-- One raw alert record from the webhook payload.  `labels = none` and
`annotations = none` model an absent key (the code does `a.get("labels", dict())`);
`status = none` models an absent `status` key. -/
structure RawAlert where
  labels : Option (List (String × String))
  annotations : Option (List (String × String))
  status : Option String
  deriving DecidableEq

/-- Normalized incident built at lines 26-45 of the ingest handler. -/
structure Incident where
  incident_id : String
  timestamp : Nat
  status : String
  severity : String
  service : String
  alertname : String
  labels : List (String × String)
  annotations : List (String × String)
  runbook_action_arn : String
  deriving DecidableEq

/-- Alert Normalizer: the per-alert normalization of lines 27-45, as a function
of the fresh identifier, the ingestion time, the `RUNBOOK_ACTION_ARN`
configuration value and the raw alert. -/
def normalize (incident_id : String) (now : Nat) (arn : String) (a : RawAlert) : Incident :=
  let labels := a.labels.getD []
  let annotations := a.annotations.getD []
  { incident_id := incident_id
    timestamp := now
    status := a.status.getD "firing"
    severity := (dictGet labels "severity").getD "ticket"
    service := (dictGet labels "service").getD "unknown"
    alertname := (dictGet labels "alertname").getD "UnknownAlert"
    labels := labels
    annotations := annotations
    runbook_action_arn := arn }

/-- The four fan-out sinks, in the order the loop body calls them:
DynamoDB `put_item`, EventBridge `put_events`, SNS `publish`,
Step Functions `start_execution`. -/
inductive Sink where
  | storage
  | bus
  | notification
  | workflow
  deriving DecidableEq

/-- Position of a sink in the call order. -/
def sinkIdx : Sink → Nat
  | .storage => 0
  | .bus => 1
  | .notification => 2
  | .workflow => 3

/-- One performed fan-out call, identified by the 0-based index of the alert in
the batch and the sink called.  The payload of each call is a function of
`normalize` applied to that alert (storage item, bus event detail, notification
subject and body, workflow input), not repeated here. -/
structure Effect where
  alertIndex : Nat
  sink : Sink
  deriving DecidableEq

/-- One `{"incident_id", "alertname"}` entry of the `processed` array. -/
structure Processed where
  incident_id : String
  alertname : String
  deriving DecidableEq

/-- Exceptions the ingest handler can raise: `json.JSONDecodeError` from
`json.loads`, or the first failing fan-out call (identified by alert index and
sink), whose exception propagates out of the handler uncaught. -/
inductive IngestError where
  | decode
  | dispatch (alertIndex : Nat) (sink : Sink)
  deriving DecidableEq

/-- The HTTP-style success response of lines 77-81. -/
structure Response where
  statusCode : Nat
  ok : Bool
  processed : List Processed
  deriving DecidableEq

/-- Decoded payload object.  The only key the handler reads is `alerts`
(`payload.get("alerts", [])`); `alerts = none` models a JSON object without
that key. -/
structure Payload where
  alerts : Option (List RawAlert)
  deriving DecidableEq

/-- The body text after the optional base64 transport decoding, modelled by its
`json.loads` outcome: the empty string (on which `json.loads` raises), a text
that parses to a payload object, or a non-empty text that does not parse
(`json.JSONDecodeError`). -/
inductive BodyText where
  | empty
  | valid (payload : Payload)
  | invalid
  deriving DecidableEq

/-- Input event of the ingest handler; `body = none` models an absent `body`
key (defaulted to the text of an empty JSON object by `event.get("body", ...)`). -/
structure Event where
  body : Option BodyText
  deriving DecidableEq

/-- Fan-out Dispatcher for one incident: performs the four sink calls in order,
stopping at the first failure.  `sinkOk i s` says whether the call to sink `s`
for the alert at index `i` succeeds; the returned option is the sink whose call
raised, if any, and the effect list records the calls that completed. -/
def dispatchIncident (sinkOk : Nat → Sink → Bool) (i : Nat) :
    List Effect × Option Sink :=
  if sinkOk i .storage then
    if sinkOk i .bus then
      if sinkOk i .notification then
        if sinkOk i .workflow then
          ([⟨i, .storage⟩, ⟨i, .bus⟩, ⟨i, .notification⟩, ⟨i, .workflow⟩], none)
        else ([⟨i, .storage⟩, ⟨i, .bus⟩, ⟨i, .notification⟩], some .workflow)
      else ([⟨i, .storage⟩, ⟨i, .bus⟩], some .notification)
    else ([⟨i, .storage⟩], some .bus)
  else ([], some .storage)

/-- The `for a in alerts:` loop of lines 26-75: normalize and dispatch each
alert in order, appending a `Processed` entry after a fully successful
dispatch; the first failing sink call aborts the loop (the exception
propagates), discarding the entries accumulated so far.  `ids i` is the
`uuid.uuid4()` value generated for the alert at index `i`. -/
def processAlerts (ids : Nat → String) (sinkOk : Nat → Sink → Bool)
    (now : Nat) (arn : String) :
    Nat → List RawAlert → List Effect × Except IngestError (List Processed)
  | _, [] => ([], .ok [])
  | i, a :: rest =>
    match dispatchIncident sinkOk i with
    | (effs, some s) => (effs, .error (.dispatch i s))
    | (effs, none) =>
      match processAlerts ids sinkOk now arn (i + 1) rest with
      | (effs2, .error e) => (effs ++ effs2, .error e)
      | (effs2, .ok entries) =>
        (effs ++ effs2,
         .ok ({ incident_id := ids i,
                alertname := (normalize (ids i) now arn a).alertname } :: entries))

/-- Embedding of `alert_ingest.lambda_handler`: decode the envelope
(`event.get("body", ...)`, then `json.loads(body or ...)` where the default and
the or-fallback are the empty-object text), read the `alerts` array, process it,
and build the 200 response.  Returns the fan-out effect trace together with the
response or the raised error. -/
def lambda_handler (ids : Nat → String) (sinkOk : Nat → Sink → Bool)
    (now : Nat) (arn : String) (event : Event) :
    List Effect × Except IngestError Response :=
  let body := event.body.getD (.valid { alerts := none })
  let body := match body with
    | .empty => BodyText.valid { alerts := none }
    | b => b
  match body with
  | .invalid => ([], .error .decode)
  | .empty => ([], .error .decode)
  | .valid payload =>
    let alerts := payload.alerts.getD []
    match processAlerts ids sinkOk now arn 0 alerts with
    | (effs, .error e) => (effs, .error e)
    | (effs, .ok entries) =>
      (effs, .ok { statusCode := 200, ok := true, processed := entries })

end AlertIngest

/-! Concrete inputs used to exercise the embeddings. -/

namespace RunbookAction

/-- Sample configuration: a cluster name and a region are set, everything else
is left to the defaults of the code. -/
def sampleEnv : Env :=
  { region := some "us-east-1", awsRegion := none, clusterName := some "demo",
    targetNamespace := none, targetDeployment := none, degradedParam := none }

/-- Incident whose override names an action outside the recognized five. -/
def unknownActionEvent : Event :=
  { alertname := some "CheckoutDown", severity := some "page",
    annotations := some [("runbook_action", "fail_over")] }

/-- Another incident whose override is not a recognized action. -/
def purgeEvent : Event :=
  { alertname := none, severity := none,
    annotations := some [("runbook_action", "purge_cache")] }

/-- Incident routed to `scale` by an explicit override, asking for 6 replicas. -/
def scaleEvent : Event :=
  { alertname := none, severity := none,
    annotations := some [("runbook_action", "scale"), ("desired_replicas", "6")] }

/-- Incident routed to `scale` by an explicit override, with no
`desired_replicas` annotation (the replica count defaults to 4). -/
def scaleDefaultEvent : Event :=
  { alertname := none, severity := none,
    annotations := some [("runbook_action", "scale")] }

/-- High-severity checkout alert routed to `degrade_or_scale`, asking for 6
replicas. -/
def burnEvent : Event :=
  { alertname := some "CheckoutHighErrorRate", severity := some "critical",
    annotations := some [("desired_replicas", "6")] }

/-- High-severity checkout alert whose `desired_replicas` annotation is not an
integer literal. -/
def badReplicasEvent : Event :=
  { alertname := some "CheckoutHighErrorRate", severity := some "critical",
    annotations := some [("desired_replicas", "six")] }

end RunbookAction

namespace AlertIngest

/-- Identifier source assigning the decimal print of the alert index. -/
def seqIds : Nat → String := fun i => toString i

/-- Oracle under which every fan-out call succeeds. -/
def allSinksOk : Nat → Sink → Bool := fun _ _ => true

/-- Oracle under which the storage write of the first alert (index 0) raises
and every other call succeeds. -/
def storageFailsFirst : Nat → Sink → Bool :=
  fun i s => !(decide (i = 0 ∧ s = Sink.storage))

/-- Raw alert with no keys at all. -/
def minimalAlert : RawAlert := { labels := none, annotations := none, status := none }

/-- Raw alert with empty labels and annotations but an explicit resolved
status. -/
def resolvedAlert : RawAlert :=
  { labels := some [], annotations := some [], status := some "resolved" }

/-- Fully populated raw alert. -/
def populatedAlert : RawAlert :=
  { labels := some [("alertname", "CustomAlert"), ("severity", "warning"),
                    ("service", "payment")],
    annotations := some [("description", "custom")],
    status := some "resolved" }

end AlertIngest

/-! Theorems. -/

namespace RunbookAction

/-- Claim C2 (amended): a non-empty override is returned verbatim even when it
is not a recognized action; with no override, or with an override that is
present but empty (which Python truthiness treats as absent), the three
high-severity checkout alert names map to degrade_or_scale, CheckoutDown maps
to restart, and every other alert name maps to notify_only; routing never
consults the severity, so every input maps to exactly one action. -/
theorem router_characterization (alertname : String) (ov : Option String) :
    (∀ s, ov = some s → s ≠ "" → routeAction alertname ov = s) ∧
    ((ov = none ∨ ov = some "") → routeAction alertname ov =
      if alertname = "CheckoutHighLatencyP95" ∨ alertname = "CheckoutHighErrorRate" ∨
          alertname = "CheckoutSLOBurnFast" then "degrade_or_scale"
      else if alertname = "CheckoutDown" then "restart"
      else "notify_only") := by
  constructor
  · rintro s rfl hs
    simp [routeAction, pyOr, hs]
  · rintro (rfl | rfl) <;> simp [routeAction, pyOr, defaultRoute]

/-- Witness for C2: a non-empty override wins over the alert name, and with no
override CheckoutDown routes to restart. -/
theorem router_characterization_witness :
    routeAction "CheckoutDown" (some "scale") = "scale" ∧
    routeAction "CheckoutDown" none = "restart" := by
  constructor
  · exact (router_characterization "CheckoutDown" (some "scale")).1 "scale" rfl (by decide)
  · have h := (router_characterization "CheckoutDown" none).2 (Or.inl rfl)
    rw [h]; decide

/-- Counterexample to C2 as stated: an override that is present but equal to
the empty string is not returned verbatim — the empty string is falsy in
Python, so the router falls back to the alert-name rules and returns restart
for CheckoutDown. -/
theorem router_empty_override_not_verbatim :
    routeAction "CheckoutDown" (some "") = "restart" ∧ ("restart" : String) ≠ "" := by
  decide

/-- Claim C3 (amended): when the resolved action is outside the five recognized
values, the handler fails with an UnknownAction error naming the bad value and
performs no mutating side effect (no SSM write and no deployment patch) — but
the control-plane connection and the credential minting have already been
performed, because the handler connects to the cluster before dispatching on
the action and only the notify_only action skips the connection. -/
theorem executor_unknown_action (env : Env) (event : Event) (cluster action : String)
    (hc : env.clusterName = some cluster) (hne : cluster ≠ "")
    (ha : routeAction (event.alertname.getD "UnknownAlert")
        (dictGet (event.annotations.getD []) "runbook_action") = action)
    (hu : action ∉ (["notify_only", "degrade", "restart", "scale",
                     "degrade_or_scale"] : List String)) :
    lambda_handler env event =
      ([Effect.clusterConn cluster,
        Effect.mintToken cluster (pyOr env.region (pyOr env.awsRegion "us-east-1"))],
       .error (.unknownAction action)) := by
  simp only [List.mem_cons, List.not_mem_nil, or_false, not_or] at hu
  obtain ⟨h1, h2, h3, h4, h5⟩ := hu
  simp [lambda_handler, hc, falsyEnv, hne, ha, h1, h2, h3, h4, h5]

/-- Witness for C3: an override naming the unrecognized action purge_cache
yields the UnknownAction error after exactly the connection and token effects. -/
theorem executor_unknown_action_witness :
    lambda_handler sampleEnv purgeEvent =
      ([Effect.clusterConn "demo", Effect.mintToken "demo" "us-east-1"],
       .error (.unknownAction "purge_cache")) := by
  have h := executor_unknown_action sampleEnv purgeEvent "demo" "purge_cache"
    rfl (by decide) (by decide) (by decide)
  simpa [sampleEnv] using h

/-- Counterexample to C3 as stated: for the unrecognized override fail_over the
handler has already connected to the control plane and minted a credential
(two side effects) before raising UnknownAction, contradicting the zero
side-effects part of the claim. -/
theorem executor_unknown_action_connects_first :
    lambda_handler sampleEnv unknownActionEvent =
      ([Effect.clusterConn "demo", Effect.mintToken "demo" "us-east-1"],
       .error (.unknownAction "fail_over")) := by
  decide

/-- Claim C4 (amended): executing the scale action patches the replica count of
the deployment to the integer value of annotations.desired_replicas (the string
defaults to 4 when the annotation is absent), and its result carries only
action, alertname and severity — no scaledTo field is added on this branch. -/
theorem executor_scale (env : Env) (event : Event) (cluster : String)
    (raw : String) (replicas : Int)
    (hc : env.clusterName = some cluster) (hne : cluster ≠ "")
    (ha : routeAction (event.alertname.getD "UnknownAlert")
        (dictGet (event.annotations.getD []) "runbook_action") = "scale")
    (hraw : (dictGet (event.annotations.getD []) "desired_replicas").getD "4" = raw)
    (hr : pyStrToInt raw = some replicas) :
    lambda_handler env event =
      ([Effect.clusterConn cluster,
        Effect.mintToken cluster (pyOr env.region (pyOr env.awsRegion "us-east-1")),
        Effect.scalePatch (env.targetNamespace.getD "apps")
          (env.targetDeployment.getD "checkout") replicas],
       .ok { action := "scale", alertname := event.alertname.getD "UnknownAlert",
             severity := event.severity.getD "ticket",
             degraded := none, scaled_to := none }) := by
  simp [lambda_handler, hc, falsyEnv, hne, ha, hraw, hr]

/-- Witness for C4: scaling with no desired_replicas annotation patches the
replica count to the default 4 and returns a result without a scaled-to
field. -/
theorem executor_scale_witness :
    lambda_handler sampleEnv scaleDefaultEvent =
      ([Effect.clusterConn "demo", Effect.mintToken "demo" "us-east-1",
        Effect.scalePatch "apps" "checkout" 4],
       .ok { action := "scale", alertname := "UnknownAlert", severity := "ticket",
             degraded := none, scaled_to := none }) := by
  have h := executor_scale sampleEnv scaleDefaultEvent "demo" "4" 4 rfl (by decide)
    (by decide) (by decide) (by decide)
  simpa [sampleEnv, scaleDefaultEvent] using h

/-- Counterexample to C4 as stated: a scale run with desired_replicas 6 issues
the scale patch but its result has no scaled-to field (scaled_to = none),
whereas the claim requires the result to contain a scaledTo field. -/
theorem executor_scale_result_lacks_scaled_to :
    lambda_handler sampleEnv scaleEvent =
      ([Effect.clusterConn "demo", Effect.mintToken "demo" "us-east-1",
        Effect.scalePatch "apps" "checkout" 6],
       .ok { action := "scale", alertname := "UnknownAlert", severity := "ticket",
             degraded := none, scaled_to := none }) := by
  decide

/-- Claim C5 (confirmed): executing degrade_or_scale with desired_replicas
set to 6 performs, in order, the audit-parameter write, the deployment env
patch, the restart patch and the scale patch to 6 replicas, and returns a
result containing degraded = true and a scaled-to value of 6 (the field the
code spells scaled_to). -/
theorem executor_degrade_or_scale (env : Env) (event : Event) (cluster : String)
    (hc : env.clusterName = some cluster) (hne : cluster ≠ "")
    (ha : routeAction (event.alertname.getD "UnknownAlert")
        (dictGet (event.annotations.getD []) "runbook_action") = "degrade_or_scale")
    (hd : dictGet (event.annotations.getD []) "desired_replicas" = some "6") :
    lambda_handler env event =
      ([Effect.clusterConn cluster,
        Effect.mintToken cluster (pyOr env.region (pyOr env.awsRegion "us-east-1")),
        Effect.ssmPutParameter (env.degradedParam.getD "/checkout/degraded_mode") "true",
        Effect.envPatch (env.targetNamespace.getD "apps")
          (env.targetDeployment.getD "checkout") "DEGRADED_MODE" "true",
        Effect.restartPatch (env.targetNamespace.getD "apps")
          (env.targetDeployment.getD "checkout"),
        Effect.scalePatch (env.targetNamespace.getD "apps")
          (env.targetDeployment.getD "checkout") 6],
       .ok { action := "degrade_or_scale",
             alertname := event.alertname.getD "UnknownAlert",
             severity := event.severity.getD "ticket",
             degraded := some true, scaled_to := some 6 }) := by
  have h6 : pyStrToInt "6" = some 6 := by decide
  simp [lambda_handler, hc, falsyEnv, hne, ha, hd, h6]

/-- Witness for C5: the high error-rate checkout alert with desired_replicas 6
produces the four mutating calls in order and the degraded/scaled result. -/
theorem executor_degrade_or_scale_witness :
    lambda_handler sampleEnv burnEvent =
      ([Effect.clusterConn "demo", Effect.mintToken "demo" "us-east-1",
        Effect.ssmPutParameter "/checkout/degraded_mode" "true",
        Effect.envPatch "apps" "checkout" "DEGRADED_MODE" "true",
        Effect.restartPatch "apps" "checkout",
        Effect.scalePatch "apps" "checkout" 6],
       .ok { action := "degrade_or_scale", alertname := "CheckoutHighErrorRate",
             severity := "critical", degraded := some true, scaled_to := some 6 }) := by
  have h := executor_degrade_or_scale sampleEnv burnEvent "demo" rfl (by decide)
    (by decide) (by decide)
  simpa [sampleEnv, burnEvent] using h

/-- Claim C10 (confirmed): when the action resolves to degrade_or_scale and the
desired_replicas annotation does not parse as an integer, the handler fails —
but only after the audit-parameter write, the env patch and the restart patch
have been performed; no scale patch is issued, so the deployment is left
degraded but not scaled. -/
theorem executor_degrade_or_scale_bad_replicas (env : Env) (event : Event)
    (cluster raw : String)
    (hc : env.clusterName = some cluster) (hne : cluster ≠ "")
    (ha : routeAction (event.alertname.getD "UnknownAlert")
        (dictGet (event.annotations.getD []) "runbook_action") = "degrade_or_scale")
    (hraw : (dictGet (event.annotations.getD []) "desired_replicas").getD "4" = raw)
    (hbad : pyStrToInt raw = none) :
    lambda_handler env event =
      ([Effect.clusterConn cluster,
        Effect.mintToken cluster (pyOr env.region (pyOr env.awsRegion "us-east-1")),
        Effect.ssmPutParameter (env.degradedParam.getD "/checkout/degraded_mode") "true",
        Effect.envPatch (env.targetNamespace.getD "apps")
          (env.targetDeployment.getD "checkout") "DEGRADED_MODE" "true",
        Effect.restartPatch (env.targetNamespace.getD "apps")
          (env.targetDeployment.getD "checkout")],
       .error (.badReplicas raw)) := by
  simp [lambda_handler, hc, falsyEnv, hne, ha, hraw, hbad]

/-- Witness for C10: desired_replicas set to the non-numeric string six causes
the failure after the audit write, env patch and restart patch. -/
theorem executor_degrade_or_scale_bad_replicas_witness :
    lambda_handler sampleEnv badReplicasEvent =
      ([Effect.clusterConn "demo", Effect.mintToken "demo" "us-east-1",
        Effect.ssmPutParameter "/checkout/degraded_mode" "true",
        Effect.envPatch "apps" "checkout" "DEGRADED_MODE" "true",
        Effect.restartPatch "apps" "checkout"],
       .error (.badReplicas "six")) := by
  have h := executor_degrade_or_scale_bad_replicas sampleEnv badReplicasEvent "demo" "six"
    rfl (by decide) (by decide) (by decide) (by decide)
  simpa [sampleEnv, badReplicasEvent] using h

/-- Claim C9 (amended): a control-plane response with status code at least 300
fails with ControlPlaneRequestFailed carrying that status code and the response
body truncated to 500 characters; any status below 300 — including non-2xx
informational codes — is treated as success, where a non-empty body is parsed
and an empty body yields an empty result object rather than a parse error. -/
theorem k8s_response_spec (status : Nat) (text : String) :
    (300 ≤ status → handleK8sResponse status text = .requestFailed status (strTake text 500)) ∧
    (status < 300 → text ≠ "" → handleK8sResponse status text = .okJson text) ∧
    (status < 300 → text = "" → handleK8sResponse status text = .okEmpty) := by
  refine ⟨fun h => by simp [handleK8sResponse, h],
          fun h ht => ?_, fun h ht => ?_⟩ <;>
    simp [handleK8sResponse, Nat.not_le.mpr h, ht]

/-- Witness for C9: a 403 Forbidden patch response raises the failure carrying
status 403 and the body, and a 204 empty-body response yields the empty
result. -/
theorem k8s_response_spec_witness :
    handleK8sResponse 403 "Forbidden" = .requestFailed 403 "Forbidden" ∧
    handleK8sResponse 204 "" = .okEmpty := by
  constructor
  · have h := (k8s_response_spec 403 "Forbidden").1 (by decide)
    rw [h]; decide
  · exact (k8s_response_spec 204 "").2.2 (by decide) rfl

/-- Counterexample to C9 as stated: status 100 is not a 2xx code, yet the
request-handling code treats it as success (it only raises for status codes of
at least 300) and parses the body instead of failing. -/
theorem k8s_informational_status_is_success :
    handleK8sResponse 100 "continue" = .okJson "continue" ∧ ¬(200 ≤ 100 ∧ 100 < 300) := by
  constructor
  · decide
  · decide

end RunbookAction

namespace AlertIngest

/-- Claim C6 (amended): for a raw alert with empty or absent labels and
annotations and no status field, the normalized incident has
alertname = UnknownAlert, severity = ticket, service = unknown and
status = firing; for a fully populated raw alert the four fields are copied
verbatim with no defaulting (a present status is copied even when labels and
annotations are empty). -/
theorem normalize_spec (incident_id : String) (now : Nat) (arn : String) (a : RawAlert) :
    ((a.labels = none ∨ a.labels = some []) →
     (a.annotations = none ∨ a.annotations = some []) →
     a.status = none →
      normalize incident_id now arn a =
        { incident_id := incident_id, timestamp := now, status := "firing",
          severity := "ticket", service := "unknown", alertname := "UnknownAlert",
          labels := a.labels.getD [], annotations := a.annotations.getD [],
          runbook_action_arn := arn }) ∧
    (∀ an sev sv st,
      dictGet (a.labels.getD []) "alertname" = some an →
      dictGet (a.labels.getD []) "severity" = some sev →
      dictGet (a.labels.getD []) "service" = some sv →
      a.status = some st →
      (normalize incident_id now arn a).alertname = an ∧
      (normalize incident_id now arn a).severity = sev ∧
      (normalize incident_id now arn a).service = sv ∧
      (normalize incident_id now arn a).status = st) := by
  constructor
  · intro hl hann hst
    rcases hl with hl | hl <;> rcases hann with hann | hann <;>
      simp [normalize, dictGet, hl, hann, hst]
  · intro an sev sv st h1 h2 h3 h4
    simp [normalize, h1, h2, h3, h4]

/-- Witness for C6: the alert with no keys at all normalizes to the four
defaults, and a fully populated alert is copied verbatim. -/
theorem normalize_spec_witness :
    (normalize "id-0" 7 "arn" minimalAlert =
      { incident_id := "id-0", timestamp := 7, status := "firing",
        severity := "ticket", service := "unknown", alertname := "UnknownAlert",
        labels := [], annotations := [], runbook_action_arn := "arn" }) ∧
    ((normalize "id-1" 7 "arn" populatedAlert).alertname = "CustomAlert" ∧
     (normalize "id-1" 7 "arn" populatedAlert).severity = "warning" ∧
     (normalize "id-1" 7 "arn" populatedAlert).service = "payment" ∧
     (normalize "id-1" 7 "arn" populatedAlert).status = "resolved") := by
  constructor
  · exact (normalize_spec "id-0" 7 "arn" minimalAlert).1 (Or.inl rfl) (Or.inl rfl) rfl
  · exact (normalize_spec "id-1" 7 "arn" populatedAlert).2 "CustomAlert" "warning" "payment"
      "resolved" (by decide) (by decide) (by decide) rfl

/-- Counterexample to C6 as stated: a raw alert with empty labels and
annotations but an explicit resolved status normalizes with status resolved,
not the firing default the claim asserts for every such alert. -/
theorem normalize_status_not_defaulted_when_present :
    (normalize "id-0" 0 "" resolvedAlert).status = "resolved" ∧
    ("resolved" : String) ≠ "firing" := by
  decide

/-- Claim C7 (confirmed): an absent body, an empty body, a payload without an
alerts key and an empty alerts array all succeed with status 200 and the body
ok = true, processed = [] — zero processed incidents and zero fan-out calls,
not an error. -/
theorem ingest_empty_inputs (ids : Nat → String) (sinkOk : Nat → Sink → Bool)
    (now : Nat) (arn : String) (event : Event)
    (h : event.body = none ∨ event.body = some .empty ∨
         event.body = some (.valid { alerts := none }) ∨
         event.body = some (.valid { alerts := some [] })) :
    lambda_handler ids sinkOk now arn event =
      ([], .ok { statusCode := 200, ok := true, processed := [] }) := by
  rcases h with h | h | h | h <;> simp [lambda_handler, h, processAlerts]

/-- Witness for C7: the envelope with no body key yields the empty success
response. -/
theorem ingest_empty_inputs_witness :
    lambda_handler seqIds allSinksOk 0 "arn" { body := none } =
      ([], .ok { statusCode := 200, ok := true, processed := [] }) :=
  ingest_empty_inputs seqIds allSinksOk 0 "arn" { body := none } (Or.inl rfl)

/-- Claim C8 (confirmed): a non-JSON body fails with the structured decode
error, performs no fan-out call (no partial results) and never returns a 200
success response. -/
theorem ingest_malformed_body (ids : Nat → String) (sinkOk : Nat → Sink → Bool)
    (now : Nat) (arn : String) (event : Event)
    (h : event.body = some .invalid) :
    lambda_handler ids sinkOk now arn event = ([], .error .decode) := by
  simp [lambda_handler, h]

/-- Witness for C8: a malformed body aborts with the decode error and an empty
effect trace. -/
theorem ingest_malformed_body_witness :
    lambda_handler seqIds allSinksOk 0 "arn" { body := some .invalid } =
      ([], .error .decode) :=
  ingest_malformed_body seqIds allSinksOk 0 "arn" { body := some .invalid } rfl

/-- Helper: when a dispatch stops at a failing sink, every completed call
belongs to that alert and precedes the failing sink in the call order. -/
theorem dispatchIncident_fail (sinkOk : Nat → Sink → Bool) (i : Nat)
    (effs : List Effect) (s : Sink)
    (h : dispatchIncident sinkOk i = (effs, some s)) :
    ∀ e ∈ effs, e.alertIndex = i ∧ sinkIdx e.sink < sinkIdx s := by
  unfold dispatchIncident at h
  split_ifs at h <;> injection h with h1 h2 <;> subst h1 <;>
    first
      | exact Option.noConfusion h2
      | (injection h2 with h3
         subst h3
         intro e he
         fin_cases he <;> simp [sinkIdx])

/-- Helper: a fully successful dispatch performs exactly the four calls in
order. -/
theorem dispatchIncident_ok (sinkOk : Nat → Sink → Bool) (i : Nat)
    (effs : List Effect)
    (h : dispatchIncident sinkOk i = (effs, none)) :
    effs = [⟨i, .storage⟩, ⟨i, .bus⟩, ⟨i, .notification⟩, ⟨i, .workflow⟩] := by
  unfold dispatchIncident at h
  split_ifs at h <;> simp_all

/-- Helper: when the alert loop starting at index n aborts with a dispatch
error at alert i and sink s, every performed call belongs to an alert before i
or is an earlier call of alert i, and every alert strictly between n and i
completed all four calls. -/
theorem processAlerts_error (ids : Nat → String) (sinkOk : Nat → Sink → Bool)
    (now : Nat) (arn : String) (alerts : List RawAlert) :
    ∀ (n : Nat) (effs : List Effect) (i : Nat) (s : Sink),
      processAlerts ids sinkOk now arn n alerts = (effs, .error (.dispatch i s)) →
      n ≤ i ∧
      (∀ e ∈ effs, e.alertIndex < i ∨ (e.alertIndex = i ∧ sinkIdx e.sink < sinkIdx s)) ∧
      (∀ j, n ≤ j → j < i → ∀ s', (⟨j, s'⟩ : Effect) ∈ effs) := by
  induction alerts with
  | nil =>
    intro n effs i s h
    simp [processAlerts] at h
  | cons a rest ih =>
    intro n effs i s h
    unfold processAlerts at h
    rcases hd : dispatchIncident sinkOk n with ⟨effs1, s?⟩
    rw [hd] at h
    cases s? with
    | some s1 =>
      simp only [Prod.mk.injEq, Except.error.injEq, IngestError.dispatch.injEq] at h
      obtain ⟨rfl, rfl, rfl⟩ := h
      refine ⟨le_refl n, ?_, ?_⟩
      · intro e he
        exact Or.inr (dispatchIncident_fail sinkOk n _ _ hd e he)
      · intro j hj1 hj2
        omega
    | none =>
      rcases hr : processAlerts ids sinkOk now arn (n + 1) rest with ⟨effs2, r2⟩
      rw [hr] at h
      cases r2 with
      | ok entries => simp at h
      | error e =>
        simp only [Prod.mk.injEq, Except.error.injEq] at h
        obtain ⟨rfl, rfl⟩ := h
        obtain ⟨hni, hmem, hdone⟩ := ih (n + 1) effs2 i s hr
        have hfour := dispatchIncident_ok sinkOk n effs1 hd
        refine ⟨by omega, ?_, ?_⟩
        · intro e he
          rcases List.mem_append.mp he with he1 | he2
          · left
            rw [hfour] at he1
            simp at he1
            rcases he1 with rfl | rfl | rfl | rfl <;> simp <;> omega
          · exact hmem e he2
        · intro j hj1 hj2 s'
          rcases Nat.eq_or_lt_of_le hj1 with rfl | hlt
          · refine List.mem_append_left _ ?_
            rw [hfour]
            cases s' <;> simp
          · exact List.mem_append_right _ (hdone j hlt hj2 s')

/-- Claim C1 (amended): a failure in fan-out call k of one incident aborts that
incident's remaining calls and also all processing of the later alerts in the
batch — the exception propagates, so every performed call belongs to an
earlier alert or is an earlier call of the failing alert, and no 200 response
is returned; the calls already completed (all four for each earlier alert) are
not rolled back. -/
theorem ingest_failure_aborts_batch (ids : Nat → String) (sinkOk : Nat → Sink → Bool)
    (now : Nat) (arn : String) (event : Event)
    (effs : List Effect) (i : Nat) (s : Sink)
    (h : lambda_handler ids sinkOk now arn event = (effs, .error (.dispatch i s))) :
    (∀ e ∈ effs, e.alertIndex < i ∨ (e.alertIndex = i ∧ sinkIdx e.sink < sinkIdx s)) ∧
    (∀ j, j < i → ∀ s', (⟨j, s'⟩ : Effect) ∈ effs) := by
  obtain ⟨body⟩ := event
  rcases body with _ | b
  · simp [lambda_handler, processAlerts] at h
  · rcases b with _ | payload | _
    · simp [lambda_handler, processAlerts] at h
    · simp only [lambda_handler, Option.getD_some] at h
      rcases hp : processAlerts ids sinkOk now arn 0 (payload.alerts.getD []) with ⟨effs0, r⟩
      rw [hp] at h
      cases r with
      | ok entries => simp at h
      | error e =>
        simp only [Prod.mk.injEq, Except.error.injEq] at h
        obtain ⟨rfl, rfl⟩ := h
        obtain ⟨-, hmem, hdone⟩ :=
          processAlerts_error ids sinkOk now arn (payload.alerts.getD []) 0 _ i s hp
        exact ⟨hmem, fun j hj s' => hdone j (Nat.zero_le j) hj s'⟩
    · simp [lambda_handler] at h

/-- Witness for C1: in a two-alert batch whose first storage write fails, the
abort happens at alert 0, sink storage, with an empty effect trace. -/
theorem ingest_failure_aborts_batch_witness :
    (∀ e ∈ ([] : List Effect),
        e.alertIndex < 0 ∨ (e.alertIndex = 0 ∧ sinkIdx e.sink < sinkIdx Sink.storage)) ∧
    (∀ j, j < 0 → ∀ s', (⟨j, s'⟩ : Effect) ∈ ([] : List Effect)) :=
  ingest_failure_aborts_batch seqIds storageFailsFirst 0 "arn"
    { body := some (.valid { alerts := some [minimalAlert, minimalAlert] }) }
    [] 0 .storage (by decide)

/-- Counterexample to C1 as stated: in a two-alert batch where only the storage
write of the first alert fails, the whole invocation aborts with the dispatch
error — the second alert receives none of its four fan-out calls and no 200
response reports it, so the other alerts in the batch are not processed
independently. -/
theorem ingest_failure_strands_second_alert :
    lambda_handler seqIds storageFailsFirst 0 "arn"
      { body := some (.valid { alerts := some [minimalAlert, minimalAlert] }) } =
    ([], .error (.dispatch 0 .storage)) := by
  decide

end AlertIngest

end SREPlatform
